import Mathlib

/-!
Verification development for the AI-MCP-Server repository
(src/mcp_server/server.py and src/mcp_client/client.py).

The Python sources are shallowly embedded as executable Lean definitions:
pure fragments become Lean functions, the external world (console prompts,
clock reads, transport success of the MCP tool calls) becomes explicit
environment records, fallible calls return `Except`, and the MySQL incident
table becomes an explicit `List Incident` threaded through the operations.
Timestamps are modelled as natural numbers counting whole seconds, matching
the second-level granularity of the `strftime('%Y%m%d%H%M%S')` format used
for incident numbers.  String handling (split on whitespace, strip, lower)
is re-implemented structurally over `List Char` so that every definition
evaluates by kernel reduction; the helpers mirror Python's behaviour on the
ASCII range handled by the application.
-/

deriving instance DecidableEq for Except

namespace AIMCP

/-! ## Character-level helpers (Python `str.split` / `str.strip` / `str.lower`) -/

/-- Whitespace characters recognised by Python's `str.split()` / `str.strip()`
(ASCII range). -/
def isWs (c : Char) : Bool :=
  c = ' ' || c = '\t' || c = '\n' || c = '\r' || c = '\x0b' || c = '\x0c'

/-- Accumulator-style splitting of a character list into maximal runs of
non-whitespace characters, as Python's no-argument `str.split()` does
(empty fragments are never produced). -/
def wordsAux : List Char → List Char → List (List Char)
  | [], acc => if acc.isEmpty then [] else [acc.reverse]
  | c :: cs, acc =>
    if isWs c then
      if acc.isEmpty then wordsAux cs [] else acc.reverse :: wordsAux cs []
    else wordsAux cs (c :: acc)

/-- Python `s.split()` (no separator argument): whitespace-delimited words. -/
def pySplit (s : String) : List String :=
  (wordsAux s.toList []).map fun cs => String.mk cs

/-- Drop leading whitespace from a character list. -/
def dropWs : List Char → List Char
  | [] => []
  | c :: cs => if isWs c then dropWs cs else c :: cs

/-- Python `s.strip()`: remove leading and trailing whitespace. -/
def pyStrip (s : String) : String :=
  String.mk ((dropWs (dropWs s.toList).reverse).reverse)

/-- Python `s.lower()` (ASCII range). -/
def pyLower (s : String) : String :=
  String.mk (s.toList.map Char.toLower)

/-- Boolean test for one list occurring contiguously inside another
(`needle` inside `hay`). -/
def infixOf (needle : List Char) : List Char → Bool
  | [] => needle.isEmpty
  | c :: tl => needle.isPrefixOf (c :: tl) || infixOf needle tl

/-! ## Server model: `src/mcp_server/server.py` -/

/-- The fixed stopword set of server.py line 60. -/
def STOPWORDS : List String :=
  ["the", "is", "a", "an", "to", "for", "with", "and", "or", "what",
   "do", "i", "my", "on", "how", "of"]

/-- The keyword extraction shared by `search_knowledge_base` and
`search_incidents` (server.py lines 73-77 and 115-119): split the query on
whitespace, strip and lowercase each fragment, discard fragments that are
empty after stripping or whose lowercase form is a stopword. -/
def keywords (short_description_contains : String) : List String :=
  ((pySplit short_description_contains).filter fun k =>
      pyStrip k ≠ "" && !STOPWORDS.contains (pyLower (pyStrip k))).map
    fun k => pyLower (pyStrip k)

/-- One SQL pattern test `LOWER(short_description) LIKE CONCAT(CHAR(37), kw, CHAR(37))`
for a keyword that is already lowercase.  Modelled as a plain substring test;
SQL wildcard characters inside a keyword would only make the real predicate
more permissive, which the membership theorems below do not rely on. -/
def likeContains (column kw : String) : Bool :=
  infixOf kw.toList (pyLower column).toList

/-- The WHERE clause built by both search tools: when the query string is
truthy and produces at least one keyword, a record matches if ANY keyword is a
case-insensitive substring of its `short_description`; otherwise there is no
filter and every record matches. -/
def whereMatch (short_description_contains : String) (short_description : String) : Bool :=
  if short_description_contains = "" then true
  else
    match keywords short_description_contains with
    | [] => true
    | ks => ks.any fun kw => likeContains short_description kw

/-- A row of `knowledge_base.knowledge_base`; `updated` is the recency
timestamp in whole seconds. -/
structure KnowledgeArticle where
  number : String
  version : String
  short_description : String
  author : String
  category : String
  workflow : String
  updated : Nat
deriving DecidableEq, Repr

/-- A row of `incident.incidents`; `opened` is the recency timestamp in whole
seconds. -/
structure Incident where
  number : String
  opened : Nat
  short_description : String
  description : String
  state : String
  assigned_to : Option String
deriving DecidableEq, Repr

/-- Descending recency order on knowledge articles (`ORDER BY updated DESC`);
ties are broken deterministically by the stable sort below. -/
def kbDesc (a b : KnowledgeArticle) : Prop := b.updated ≤ a.updated

instance : DecidableRel kbDesc := fun a b => Nat.decLe _ _

/-- Descending recency order on incidents (`ORDER BY opened DESC`). -/
def incDesc (a b : Incident) : Prop := b.opened ≤ a.opened

instance : DecidableRel incDesc := fun a b => Nat.decLe _ _

/-- The `search_knowledge_base` tool (server.py lines 65-102): filter by the
keyword WHERE clause, order by `updated` descending, truncate to `limit`. -/
def search_knowledge_base (kb : List KnowledgeArticle)
    (short_description_contains : String) (limit : Nat) : List KnowledgeArticle :=
  (((kb.filter fun r => whereMatch short_description_contains r.short_description)).insertionSort
      kbDesc).take limit

/-- The `search_incidents` tool (server.py lines 108-144): filter by the
keyword WHERE clause, order by `opened` descending, truncate to `limit`. -/
def search_incidents (incdb : List Incident)
    (short_description_contains : String) (limit : Nat) : List Incident :=
  (((incdb.filter fun r => whereMatch short_description_contains r.short_description)).insertionSort
      incDesc).take limit

/-! ## Server model: `create_incident` and the incident table -/

/-- Failure modes of the record store (spec §7 taxonomy). -/
inductive StoreError
  | DuplicateKeyError
  | StoreUnavailableError
deriving DecidableEq, Repr

/-- Shape of the dictionary returned by a successful `create_incident` call
(server.py line 171). -/
structure CreateIncidentResult where
  status : String
  number : String
deriving DecidableEq, Repr

/-- Modelled from the spec: the `create_incident` tool (server.py lines
150-171) executes a plain SQL INSERT into `incident.incidents`; the
uniqueness of the `number` column is enforced by the database schema, which
is not part of src/.  Spec §4.2 and §6 fix the contract: the insert is
atomic and fails with `DuplicateKeyError` when `number` already exists;
otherwise the row is appended and `{status: success, number}` is returned. -/
def create_incident (incdb : List Incident) (number : String) (opened : Nat)
    (short_description description state : String) (assigned_to : Option String) :
    Except StoreError (List Incident × CreateIncidentResult) :=
  if incdb.any fun r => r.number = number then .error .DuplicateKeyError
  else .ok (incdb ++ [⟨number, opened, short_description, description, state, assigned_to⟩],
            ⟨"success", number⟩)

/-! ## Client model: `src/mcp_client/client.py` -/

/-- The `AgentState` TypedDict of client.py lines 29-36.  All keys other than
`user_query` are optional; `state.get` on a missing key yields `none`. -/
structure AgentState where
  user_query : String
  kb_results : Option (List KnowledgeArticle)
  incident_results : Option (List Incident)
  user_feedback : Option String
  user_create_incident : Option String
  incident_number : Option String
  final_response : Option String
deriving DecidableEq, Repr

/-- The state `AgentState(user_query=user_query)` built in `main`
(client.py line 209): only `user_query` is present. -/
def initState (q : String) : AgentState :=
  ⟨q, none, none, none, none, none, none⟩

/-- Errors that can abort one workflow run (exceptions propagating out of a
node's external calls). -/
inductive RunError
  | resolveFailure
  | store (e : StoreError)
  | notificationFailure
deriving DecidableEq, Repr

/-- The second-granularity timestamp format
`datetime.now().strftime('%Y%m%d%H%M%S')` (client.py line 147), embedded as
the 14-digit zero-padded decimal rendering of the second count: like the
original format it is an injective, second-granularity encoding of the
clock read. -/
def fmt14 (t : Nat) : String :=
  let s := toString t
  String.mk (List.replicate (14 - s.length) '0') ++ s

/-- Python's `s or None` idiom applied to a string (client.py line 160):
the empty string is falsy and becomes `None`; any other string is kept. -/
def pyOrNone (s : String) : Option String :=
  if s = "" then none else some s

/-- External inputs consumed by one execution of `escalation_node`: the three
incident-detail prompts, the two successive `datetime.now()` reads (in whole
seconds, first the one formatted into the incident number, then the one sent
as `opened`), and whether the `email_send_mock` tool call succeeds at the
transport level. -/
structure EscalationEnv where
  short_description : String
  description : String
  assigned_to : String
  now1 : Nat
  now2 : Nat
  emailOk : Bool
deriving DecidableEq, Repr

/-- The `escalation_node` of client.py lines 140-179, threading the incident
table through the `create_incident` call.  The first component is the run
outcome (an uncaught exception from either tool call aborts the node); the
second is the incident table afterwards, which keeps any row inserted before
a later failure. -/
def escalation_node (st : AgentState) (env : EscalationEnv) (incdb : List Incident) :
    Except RunError AgentState × List Incident :=
  if st.user_feedback = some "no" ∧ st.user_create_incident = some "yes" then
    let incident_number := "INC" ++ fmt14 env.now1
    let opened := env.now2
    match create_incident incdb incident_number opened env.short_description
        env.description "New" (pyOrNone env.assigned_to) with
    | .error e => (.error (.store e), incdb)
    | .ok (incdb', _) =>
      if env.emailOk then
        let st' := { st with incident_number := some incident_number,
                             final_response :=
                               some ("Incident " ++ incident_number ++ " created.") }
        (.ok st', incdb')
      else (.error .notificationFailure, incdb')
  else if st.user_feedback = some "no" then
    let st' := { st with
                 final_response := some "No incident created. Issue remains unresolved." }
    (.ok st', incdb)
  else
    let st' := { st with
                 final_response := some "Glad it helped! No escalation needed." }
    (.ok st', incdb)

/-- External inputs consumed by one execution of `resolver_node`: whether the
two MCP search calls and the Gemini call succeed, and the stripped summary
text returned by the model. -/
structure ResolveEnv where
  searchesOk : Bool
  summaryOk : Bool
  summaryText : String
deriving DecidableEq, Repr

/-- The `resolver_node` of client.py lines 41-122: search both stores with
the raw user query and limit 5, obtain the summary, and populate
`kb_results`, `incident_results` and `final_response`.  A failure of either
search call or of the summarization call propagates and aborts the run. -/
def resolver_node (st : AgentState) (env : ResolveEnv)
    (kb : List KnowledgeArticle) (incdb : List Incident) : Except RunError AgentState :=
  if env.searchesOk ∧ env.summaryOk then
    .ok { st with
      kb_results := some (search_knowledge_base kb st.user_query 5),
      incident_results := some (search_incidents incdb st.user_query 5),
      final_response := some env.summaryText }
  else .error .resolveFailure

/-- External inputs consumed by one execution of `confirmation_node`: the
answers to the two yes/no prompts (`Prompt.ask` with choices restricted to
"yes"/"no"; defaults "no" and "yes" respectively are applied by the prompt
itself, so the answers arrive as plain strings). -/
structure ConfirmEnv where
  feedback : String
  createAnswer : String
deriving DecidableEq, Repr

/-- The `confirmation_node` of client.py lines 128-134: record the feedback;
when it is "no", also ask whether to create an incident; otherwise force
`user_create_incident` to "no". -/
def confirmation_node (st : AgentState) (env : ConfirmEnv) : AgentState :=
  if env.feedback = "no" then
    { st with user_feedback := some env.feedback,
              user_create_incident := some env.createAnswer }
  else
    { st with user_feedback := some env.feedback,
              user_create_incident := some "no" }

/-- Environment for one full workflow run (resolver → confirmation →
escalation, the LangGraph edges of client.py lines 185-194). -/
structure RunEnv where
  resolve : ResolveEnv
  confirm : ConfirmEnv
  escalate : EscalationEnv
deriving DecidableEq, Repr

/-- One `app.ainvoke` run of the compiled graph: Resolve, then Confirm, then
Escalate; an error in Resolve aborts before Confirm; the incident table is
threaded through Escalate. -/
def runWorkflow (q : String) (env : RunEnv) (kb : List KnowledgeArticle)
    (incdb : List Incident) : Except RunError AgentState × List Incident :=
  match resolver_node (initState q) env.resolve kb incdb with
  | .error e => (.error e, incdb)
  | .ok st1 => escalation_node (confirmation_node st1 env.confirm) env.escalate incdb

/-- The interactive loop of `main` (client.py lines 200-214), driven by a
finite list of (query, run environment) pairs.  A query equal to "exit" or
"quit" (case-insensitively) ends the loop cleanly; otherwise one workflow run
executes and its `final_response` is displayed.  `main` installs no exception
handler, so a run error propagates and terminates the whole session. -/
def mainLoop (kb : List KnowledgeArticle) :
    List Incident → List (String × RunEnv) → Except RunError (List String × List Incident)
  | incdb, [] => .ok ([], incdb)
  | incdb, (q, env) :: rest =>
    if pyLower q = "exit" ∨ pyLower q = "quit" then .ok ([], incdb)
    else
      match runWorkflow q env kb incdb with
      | (.error e, _) => .error e
      | (.ok st, incdb') =>
        match mainLoop kb incdb' rest with
        | .error e => .error e
        | .ok (outs, incdb'') => .ok ((st.final_response.getD "") :: outs, incdb'')

/-- The incident row built in the incident-creating branch of Escalate from
the prompt answers and the two clock reads. -/
def builtIncident (env : EscalationEnv) : Incident :=
  ⟨"INC" ++ fmt14 env.now1, env.now2, env.short_description, env.description,
   "New", pyOrNone env.assigned_to⟩

/-! ## Concrete sample data used by the witness theorems -/

def artVpn : KnowledgeArticle :=
  ⟨"KB001", "1", "VPN connection troubleshooting", "alice", "network", "published", 50⟩

def artPrinter : KnowledgeArticle :=
  ⟨"KB002", "2", "Printer jam recovery", "bob", "hardware", "published", 90⟩

def incVpn : Incident :=
  ⟨"INC00000000000042", 42, "VPN drops hourly", "vpn detail", "New", none⟩

/-- State entering Escalate with feedback "no" and incident creation
confirmed (concrete sample). -/
def escStB1 : AgentState := ⟨"q", none, none, some "no", some "yes", none, none⟩

/-- Escalation inputs whose two clock reads fall in different seconds. -/
def escEnvSkew : EscalationEnv := ⟨"sd", "d", "", 100, 101, true⟩

/-- Escalation inputs with both clock reads in second 100 and a failing
notification call. -/
def escEnvNoEmail : EscalationEnv := ⟨"sd", "d", "", 100, 100, false⟩

/-- Run environment of a fully successful run whose feedback is "yes". -/
def runEnvGood : RunEnv := ⟨⟨true, true, "try rebooting"⟩, ⟨"yes", ""⟩, ⟨"", "", "", 0, 0, true⟩⟩

/-- Run environment whose Resolve step fails (a search or the summarizer
call raises). -/
def runEnvResolveFail : RunEnv := ⟨⟨false, true, "x"⟩, ⟨"yes", ""⟩, ⟨"", "", "", 0, 0, true⟩⟩

/-! ## Helper lemmas -/

/-- An element whose first index in a list is below `n` survives `take n`. -/
theorem mem_take_of_indexOf_lt {α : Type} [DecidableEq α] {l : List α} {a : α} {n : Nat}
    (ha : a ∈ l) (h : l.indexOf a < n) : a ∈ l.take n := by
  induction l generalizing n with
  | nil => exact absurd ha (List.not_mem_nil a)
  | cons x xs ih =>
    cases n with
    | zero => exact absurd h (Nat.not_lt_zero _)
    | succ n =>
      by_cases hx : x = a
      · subst hx
        exact List.mem_cons_self x _
      · have hmem : a ∈ xs := by
          rcases List.mem_cons.mp ha with h1 | h1
          · exact absurd h1.symm hx
          · exact h1
        have hc := List.indexOf_cons_ne xs hx
        rw [hc] at h
        exact List.mem_cons_of_mem x (ih hmem (Nat.lt_of_succ_lt_succ h))

/-- A keyword of the query that occurs in a record description makes the WHERE
clause accept the record. -/
theorem whereMatch_of_keyword {q desc t : String} (ht : t ∈ keywords q)
    (hlike : likeContains desc t = true) : whereMatch q desc = true := by
  have hne : keywords q ≠ [] := by
    intro h
    rw [h] at ht
    exact absurd ht (List.not_mem_nil t)
  have hq : q ≠ "" := by
    intro h
    subst h
    exact hne rfl
  unfold whereMatch
  rw [if_neg hq]
  cases hk : keywords q with
  | nil => exact absurd hk hne
  | cons k ks =>
    rw [hk] at ht
    exact List.any_eq_true.mpr ⟨t, ht, hlike⟩

/-- Under the stopword hypothesis every fragment is dropped, so the keyword
list is empty. -/
theorem keywords_eq_nil_of_stopwords {q : String}
    (hq : ∀ k ∈ pySplit q, pyStrip k = "" ∨ pyLower (pyStrip k) ∈ STOPWORDS) :
    keywords q = [] := by
  unfold keywords
  have hfil : (pySplit q).filter
      (fun k => pyStrip k ≠ "" && !STOPWORDS.contains (pyLower (pyStrip k))) = [] := by
    rw [List.filter_eq_nil_iff]
    intro k hk
    rcases hq k hk with h1 | h1
    · simp [h1]
    · simp only [Bool.not_eq_true, Bool.and_eq_false_iff]
      right
      simpa [List.contains] using h1
  rw [hfil]
  rfl

/-- With an empty keyword list the WHERE clause accepts everything. -/
theorem whereMatch_of_keywords_nil {q : String} (hkw : keywords q = []) (d : String) :
    whereMatch q d = true := by
  unfold whereMatch
  by_cases hqe : q = ""
  · rw [if_pos hqe]
  · rw [if_neg hqe, hkw]

/-! ## Claims about the search tools -/

/-- C6: a query consisting only of stopwords or whitespace produces an empty
token set, and both search tools then apply no filter, returning the `limit`
most recent records of their store. -/
theorem stopword_query_returns_most_recent (q : String)
    (hq : ∀ k ∈ pySplit q, pyStrip k = "" ∨ pyLower (pyStrip k) ∈ STOPWORDS)
    (kb : List KnowledgeArticle) (incdb : List Incident) (limit : Nat) :
    keywords q = [] ∧
    search_knowledge_base kb q limit = (kb.insertionSort kbDesc).take limit ∧
    search_incidents incdb q limit = (incdb.insertionSort incDesc).take limit := by
  have hkw := keywords_eq_nil_of_stopwords hq
  have hfil1 : kb.filter (fun r => whereMatch q r.short_description) = kb :=
    List.filter_eq_self.mpr fun a _ => whereMatch_of_keywords_nil hkw _
  have hfil2 : incdb.filter (fun r => whereMatch q r.short_description) = incdb :=
    List.filter_eq_self.mpr fun a _ => whereMatch_of_keywords_nil hkw _
  refine ⟨hkw, ?_, ?_⟩
  · unfold search_knowledge_base
    rw [hfil1]
  · unfold search_incidents
    rw [hfil2]

theorem stopword_query_returns_most_recent_witness :
    keywords "how to the" = [] ∧
    search_knowledge_base [artVpn, artPrinter] "how to the" 1 =
      (([artVpn, artPrinter].insertionSort kbDesc)).take 1 ∧
    search_incidents [incVpn] "how to the" 1 = (([incVpn].insertionSort incDesc)).take 1 :=
  stopword_query_returns_most_recent "how to the" (by decide) [artVpn, artPrinter] [incVpn] 1

/-- C7: a record whose `short_description` contains some extracted token of
the query (case-insensitively) appears in the search result, provided its
rank in the recency-ordered list of matching records is below `limit`; this
holds for both stores. -/
theorem token_substring_match_included :
    (∀ (kb : List KnowledgeArticle) (q : String) (limit : Nat) (r : KnowledgeArticle)
        (t : String), t ∈ keywords q → likeContains r.short_description t = true →
        r ∈ kb →
        ((kb.filter fun x => whereMatch q x.short_description).insertionSort
            kbDesc).indexOf r < limit →
        r ∈ search_knowledge_base kb q limit) ∧
    (∀ (incdb : List Incident) (q : String) (limit : Nat) (r : Incident)
        (t : String), t ∈ keywords q → likeContains r.short_description t = true →
        r ∈ incdb →
        ((incdb.filter fun x => whereMatch q x.short_description).insertionSort
            incDesc).indexOf r < limit →
        r ∈ search_incidents incdb q limit) := by
  refine ⟨?_, ?_⟩
  · intro kb q limit r t ht hlike hr hrank
    have hfil : r ∈ kb.filter fun x => whereMatch q x.short_description :=
      List.mem_filter.mpr ⟨hr, whereMatch_of_keyword ht hlike⟩
    exact mem_take_of_indexOf_lt ((List.mem_insertionSort kbDesc).mpr hfil) hrank
  · intro incdb q limit r t ht hlike hr hrank
    have hfil : r ∈ incdb.filter fun x => whereMatch q x.short_description :=
      List.mem_filter.mpr ⟨hr, whereMatch_of_keyword ht hlike⟩
    exact mem_take_of_indexOf_lt ((List.mem_insertionSort incDesc).mpr hfil) hrank

theorem token_substring_match_included_witness :
    artVpn ∈ search_knowledge_base [artPrinter, artVpn] "vpn not connecting" 5 ∧
    incVpn ∈ search_incidents [incVpn] "my vpn is down" 5 :=
  ⟨token_substring_match_included.1 [artPrinter, artVpn] "vpn not connecting" 5 artVpn "vpn"
      (by decide) (by decide) (by decide) (by decide),
   token_substring_match_included.2 [incVpn] "my vpn is down" 5 incVpn "vpn"
      (by decide) (by decide) (by decide) (by decide)⟩

/-- C8: for every token set (equivalently, every query string), every store
and every `limit ≥ 1`, both search tools return at most `limit` records. -/
theorem search_returns_at_most_limit (kb : List KnowledgeArticle) (incdb : List Incident)
    (q : String) (limit : Nat) (h : 1 ≤ limit) :
    (search_knowledge_base kb q limit).length ≤ limit ∧
    (search_incidents incdb q limit).length ≤ limit :=
  ⟨List.length_take_le limit _, List.length_take_le limit _⟩

theorem search_returns_at_most_limit_witness :
    (1 : Nat) ≤ 2 ∧
    (search_knowledge_base [artVpn, artPrinter] "vpn" 2).length ≤ 2 ∧
    (search_incidents [incVpn] "vpn" 2).length ≤ 2 :=
  ⟨by decide,
   (search_returns_at_most_limit [artVpn, artPrinter] [incVpn] "vpn" 2 (by decide)).1,
   (search_returns_at_most_limit [artVpn, artPrinter] [incVpn] "vpn" 2 (by decide)).2⟩

/-! ## Characterization of the Escalate step -/

/-- Complete case analysis of `escalation_node` in its incident-creating
branch: a duplicate number fails the insert and leaves the table unchanged;
otherwise the row is appended, and the run completes with the creation
message exactly when the notification call succeeds. -/
theorem escalation_branch1_eq (st : AgentState) (env : EscalationEnv)
    (incdb : List Incident)
    (hf : st.user_feedback = some "no") (hc : st.user_create_incident = some "yes") :
    escalation_node st env incdb =
      if incdb.any (fun r => r.number = "INC" ++ fmt14 env.now1) then
        (.error (.store .DuplicateKeyError), incdb)
      else if env.emailOk then
        (.ok { st with incident_number := some ("INC" ++ fmt14 env.now1),
                       final_response :=
                         some ("Incident " ++ ("INC" ++ fmt14 env.now1) ++ " created.") },
         incdb ++ [builtIncident env])
      else (.error .notificationFailure, incdb ++ [builtIncident env]) := by
  unfold escalation_node create_incident builtIncident
  rw [if_pos ⟨hf, hc⟩]
  by_cases hdup : incdb.any (fun r => r.number = "INC" ++ fmt14 env.now1) = true
  · simp only [hdup, if_pos]
  · simp only [Bool.not_eq_true] at hdup
    simp only [hdup, Bool.false_eq_true, if_neg, if_false]

/-- The second branch of Escalate: feedback "no" but incident creation not
confirmed with "yes". -/
theorem escalation_branch2_eq (st : AgentState) (env : EscalationEnv)
    (incdb : List Incident)
    (hf : st.user_feedback = some "no") (hc : st.user_create_incident ≠ some "yes") :
    escalation_node st env incdb =
      (.ok { st with
          final_response := some "No incident created. Issue remains unresolved." }, incdb) := by
  unfold escalation_node
  rw [if_neg fun hand => hc hand.2, if_pos hf]

/-- The third branch of Escalate: any feedback other than "no". -/
theorem escalation_branch3_eq (st : AgentState) (env : EscalationEnv)
    (incdb : List Incident) (hf : st.user_feedback ≠ some "no") :
    escalation_node st env incdb =
      (.ok { st with
          final_response := some "Glad it helped! No escalation needed." }, incdb) := by
  unfold escalation_node
  rw [if_neg fun hand => hf hand.1, if_neg hf]

/-- A successful completion of the incident-creating branch pins down both
the resulting state (creation message, incident number) and the table (the
built row appended). -/
theorem escalation_branch1_ok_eq (st : AgentState) (env : EscalationEnv)
    (incdb : List Incident) (st' : AgentState) (incdb' : List Incident)
    (hf : st.user_feedback = some "no") (hc : st.user_create_incident = some "yes")
    (h : escalation_node st env incdb = (.ok st', incdb')) :
    st' = { st with incident_number := some ("INC" ++ fmt14 env.now1),
                    final_response :=
                      some ("Incident " ++ ("INC" ++ fmt14 env.now1) ++ " created.") } ∧
    incdb' = incdb ++ [builtIncident env] := by
  rw [escalation_branch1_eq st env incdb hf hc] at h
  by_cases hdup : incdb.any (fun r => r.number = "INC" ++ fmt14 env.now1) = true
  · rw [if_pos hdup] at h
    simp only [Prod.mk.injEq] at h
    exact Except.noConfusion h.1
  · rw [if_neg hdup] at h
    by_cases hem : env.emailOk = true
    · rw [if_pos hem] at h
      simp only [Prod.mk.injEq, Except.ok.injEq] at h
      exact ⟨h.1.symm, h.2.symm⟩
    · rw [if_neg hem] at h
      simp only [Prod.mk.injEq] at h
      exact Except.noConfusion h.1

/-- Any record present in the incident table after `escalation_node` that was
not there before is exactly the row built from the escalation inputs. -/
theorem new_incident_eq_built (st : AgentState) (env : EscalationEnv)
    (incdb : List Incident) (inc : Incident)
    (hmem : inc ∈ (escalation_node st env incdb).2) (hnew : inc ∉ incdb) :
    inc = builtIncident env := by
  by_cases hf : st.user_feedback = some "no"
  · by_cases hc : st.user_create_incident = some "yes"
    · rw [escalation_branch1_eq st env incdb hf hc] at hmem
      by_cases hdup : incdb.any (fun r => r.number = "INC" ++ fmt14 env.now1) = true
      · rw [if_pos hdup] at hmem
        exact absurd hmem hnew
      · rw [if_neg hdup] at hmem
        by_cases hem : env.emailOk = true
        · rw [if_pos hem] at hmem
          rcases List.mem_append.mp hmem with h1 | h1
          · exact absurd h1 hnew
          · exact List.mem_singleton.mp h1
        · rw [if_neg hem] at hmem
          rcases List.mem_append.mp hmem with h1 | h1
          · exact absurd h1 hnew
          · exact List.mem_singleton.mp h1
    · rw [escalation_branch2_eq st env incdb hf hc] at hmem
      exact absurd hmem hnew
  · rw [escalation_branch3_eq st env incdb hf] at hmem
    exact absurd hmem hnew

/-! ## Claims about the Escalate step -/

/-- C1: the branch taken by Escalate and the resulting `final_response` are a
pure function of `(user_feedback, user_create_incident)`, with the branches
evaluated in priority order: `(some "no", some "yes")` creates the incident
and reports "Incident INC… created." (whenever the branch runs to
completion), `(some "no", anything else)` reports that no incident was
created, and any other feedback reports that no escalation is needed. -/
theorem escalate_branch_selection (st : AgentState) (env : EscalationEnv)
    (incdb : List Incident) :
    (st.user_feedback = some "no" → st.user_create_incident = some "yes" →
      ∀ st' incdb', escalation_node st env incdb = (.ok st', incdb') →
        st' = { st with incident_number := some ("INC" ++ fmt14 env.now1),
                        final_response :=
                          some ("Incident " ++ ("INC" ++ fmt14 env.now1) ++ " created.") } ∧
        incdb' = incdb ++ [builtIncident env]) ∧
    (st.user_feedback = some "no" → st.user_create_incident ≠ some "yes" →
      escalation_node st env incdb =
        (.ok { st with
            final_response := some "No incident created. Issue remains unresolved." }, incdb)) ∧
    (st.user_feedback ≠ some "no" →
      escalation_node st env incdb =
        (.ok { st with
            final_response := some "Glad it helped! No escalation needed." }, incdb)) := by
  exact ⟨fun hf hc st' incdb' h => escalation_branch1_ok_eq st env incdb st' incdb' hf hc h,
         escalation_branch2_eq st env incdb, escalation_branch3_eq st env incdb⟩

theorem escalate_branch_selection_witness :
    (⟨"q", none, none, some "no", some "yes", some "INC00000000000100",
      some "Incident INC00000000000100 created."⟩ : AgentState) =
      { escStB1 with incident_number := some ("INC" ++ fmt14 100),
                     final_response :=
                       some ("Incident " ++ ("INC" ++ fmt14 100) ++ " created.") } ∧
    [builtIncident escEnvSkew] = [] ++ [builtIncident escEnvSkew] :=
  (escalate_branch_selection escStB1 escEnvSkew []).1 rfl rfl
    ⟨"q", none, none, some "no", some "yes", some "INC00000000000100",
     some "Incident INC00000000000100 created."⟩
    [builtIncident escEnvSkew] (by decide)

/-- C9: the `assigned_to or None` conversion in the incident-creating branch:
the created record carries no assignee exactly when the user's answer was the
empty string (the prompt default), and carries the entered string otherwise. -/
theorem assigned_to_empty_becomes_none (st : AgentState) (env : EscalationEnv)
    (incdb : List Incident) (inc : Incident)
    (hf : st.user_feedback = some "no") (hc : st.user_create_incident = some "yes")
    (hmem : inc ∈ (escalation_node st env incdb).2) (hnew : inc ∉ incdb) :
    (inc.assigned_to = none ↔ env.assigned_to = "") ∧
    (env.assigned_to ≠ "" → inc.assigned_to = some env.assigned_to) := by
  have hb := new_incident_eq_built st env incdb inc hmem hnew
  subst hb
  show (pyOrNone env.assigned_to = none ↔ env.assigned_to = "") ∧
    (env.assigned_to ≠ "" → pyOrNone env.assigned_to = some env.assigned_to)
  unfold pyOrNone
  by_cases h : env.assigned_to = "" <;> simp [h]

theorem assigned_to_empty_becomes_none_witness :
    ((builtIncident escEnvSkew).assigned_to = none ↔ escEnvSkew.assigned_to = "") ∧
    (escEnvSkew.assigned_to ≠ "" →
      (builtIncident escEnvSkew).assigned_to = some escEnvSkew.assigned_to) :=
  assigned_to_empty_becomes_none escStB1 escEnvSkew [] (builtIncident escEnvSkew)
    rfl rfl (by decide) (by decide)

/-- C2 counterexample: the number and the `opened` field come from two
separate `datetime.now()` calls (client.py lines 147-148), not one clock
read.  In the execution where the first read falls in second 100 and the
second in second 101, the created row's number encodes second 100 while its
`opened` field stores second 101: the number differs from the one second 101
would produce, so the two instants disagree. -/
theorem incident_number_opened_skew_counterexample :
    (escalation_node escStB1 escEnvSkew []).2 =
      [⟨"INC" ++ fmt14 100, 101, "sd", "d", "New", none⟩] ∧
    ("INC" ++ fmt14 100) ≠ ("INC" ++ fmt14 101) := by decide

/-- C2 amended: `incident_number` and `opened` are derived from two separate
consecutive clock reads; whenever both reads fall in the same second, the
created record's number is exactly "INC" followed by the formatted `opened`
instant, i.e. there is no skew. -/
theorem incident_number_matches_opened_of_same_second (st : AgentState)
    (env : EscalationEnv) (incdb : List Incident) (inc : Incident)
    (hsec : env.now1 = env.now2)
    (hmem : inc ∈ (escalation_node st env incdb).2) (hnew : inc ∉ incdb) :
    inc.number = "INC" ++ fmt14 inc.opened := by
  have hb := new_incident_eq_built st env incdb inc hmem hnew
  subst hb
  show ("INC" ++ fmt14 env.now1) = "INC" ++ fmt14 env.now2
  rw [hsec]

theorem incident_number_matches_opened_witness :
    (builtIncident escEnvNoEmail).number =
      "INC" ++ fmt14 (builtIncident escEnvNoEmail).opened :=
  incident_number_matches_opened_of_same_second escStB1 escEnvNoEmail []
    (builtIncident escEnvNoEmail) rfl (by decide) (by decide)

/-- C3 counterexample: with the store insert succeeding (empty table) and the
notification call failing, the run does not complete: `escalation_node`
propagates the notification error instead of returning a state whose
`final_response` reports the incident as created — even though the inserted
row does persist in the table. -/
theorem notification_failure_aborts_counterexample :
    (escalation_node escStB1 escEnvNoEmail []).1 = .error .notificationFailure ∧
    (escalation_node escStB1 escEnvNoEmail []).2 = [builtIncident escEnvNoEmail] := by
  decide

/-- C3 amended: when the store insert succeeds but the subsequent
notification call fails, the incident row does persist in the store, but the
failure is fatal to the run: the error propagates and no final_response
reporting the creation is produced. -/
theorem notification_failure_aborts_run (st : AgentState) (env : EscalationEnv)
    (incdb : List Incident)
    (hf : st.user_feedback = some "no") (hc : st.user_create_incident = some "yes")
    (hdup : incdb.any (fun r => r.number = "INC" ++ fmt14 env.now1) = false)
    (hem : env.emailOk = false) :
    escalation_node st env incdb =
      (.error .notificationFailure, incdb ++ [builtIncident env]) := by
  rw [escalation_branch1_eq st env incdb hf hc]
  simp [hdup, hem]

theorem notification_failure_aborts_run_witness :
    escalation_node escStB1 escEnvNoEmail [] =
      (.error .notificationFailure, [] ++ [builtIncident escEnvNoEmail]) :=
  notification_failure_aborts_run escStB1 escEnvNoEmail [] rfl rfl
    (by decide) (by decide)

/-- C5: two sequential incident creations whose generating clock reads fall
in the same second do not silently overwrite each other: the second insert
fails with `DuplicateKeyError` (so in particular either it fails or its
generated number differs, as the spec states). -/
theorem same_second_creations_not_silent (st1 st2 : AgentState)
    (env1 env2 : EscalationEnv) (incdb incdb1 : List Incident) (st1' : AgentState)
    (hf1 : st1.user_feedback = some "no") (hc1 : st1.user_create_incident = some "yes")
    (hf2 : st2.user_feedback = some "no") (hc2 : st2.user_create_incident = some "yes")
    (hsec : env2.now1 = env1.now1)
    (h1 : escalation_node st1 env1 incdb = (.ok st1', incdb1)) :
    (escalation_node st2 env2 incdb1).1 = .error (.store .DuplicateKeyError) ∨
    ("INC" ++ fmt14 env2.now1) ≠ ("INC" ++ fmt14 env1.now1) := by
  left
  have hdb := (escalation_branch1_ok_eq st1 env1 incdb st1' incdb1 hf1 hc1 h1).2
  rw [escalation_branch1_eq st2 env2 incdb1 hf2 hc2]
  have hany : incdb1.any (fun r => r.number = "INC" ++ fmt14 env2.now1) = true := by
    subst hdb
    rw [hsec]
    refine List.any_eq_true.mpr
      ⟨builtIncident env1, List.mem_append_right _ (List.mem_singleton_self _), ?_⟩
    simp [builtIncident]
  rw [if_pos hany]

theorem same_second_creations_not_silent_witness :
    (escalation_node escStB1 ⟨"other issue", "more detail", "bob", 100, 100, true⟩
        [builtIncident escEnvSkew]).1 = .error (.store .DuplicateKeyError) ∨
    ("INC" ++ fmt14 (100 : Nat)) ≠ ("INC" ++ fmt14 (100 : Nat)) :=
  same_second_creations_not_silent escStB1 escStB1 escEnvSkew
    ⟨"other issue", "more detail", "bob", 100, 100, true⟩ [] [builtIncident escEnvSkew]
    ⟨"q", none, none, some "no", some "yes", some "INC00000000000100",
     some "Incident INC00000000000100 created."⟩
    rfl rfl rfl rfl rfl (by decide)

/-! ## Claims about the whole run and the interaction loop -/

/-- The creation message is never the empty string, whatever the number. -/
theorem created_msg_ne_empty (n : String) : ("Incident " ++ n ++ " created.") ≠ "" := by
  intro h
  have h2 := congrArg String.length h
  rw [String.length_append, String.length_append] at h2
  have e1 : String.length "Incident " = 9 := rfl
  have e2 : String.length " created." = 9 := rfl
  have e3 : String.length "" = 0 := rfl
  omega

/-- A successful Escalate step leaves one of the three branch messages in
`final_response`. -/
theorem escalation_ok_final_response (st : AgentState) (env : EscalationEnv)
    (incdb : List Incident) (st' : AgentState) (incdb' : List Incident)
    (h : escalation_node st env incdb = (.ok st', incdb')) :
    st'.final_response = some ("Incident " ++ ("INC" ++ fmt14 env.now1) ++ " created.") ∨
    st'.final_response = some "No incident created. Issue remains unresolved." ∨
    st'.final_response = some "Glad it helped! No escalation needed." := by
  by_cases hf : st.user_feedback = some "no"
  · by_cases hc : st.user_create_incident = some "yes"
    · left
      rw [(escalation_branch1_ok_eq st env incdb st' incdb' hf hc h).1]
    · right; left
      rw [escalation_branch2_eq st env incdb hf hc] at h
      simp only [Prod.mk.injEq, Except.ok.injEq] at h
      rw [← h.1]
  · right; right
    rw [escalation_branch3_eq st env incdb hf] at h
    simp only [Prod.mk.injEq, Except.ok.injEq] at h
    rw [← h.1]

/-- C10: every workflow run that reaches Done (i.e. `runWorkflow` returns
`.ok`) carries a defined, non-empty `final_response`: Resolve sets it to the
summary text and each Escalate branch unconditionally overwrites it with a
non-empty message. -/
theorem done_run_has_nonempty_final_response (q : String) (env : RunEnv)
    (kb : List KnowledgeArticle) (incdb : List Incident) (st : AgentState)
    (incdb' : List Incident)
    (h : runWorkflow q env kb incdb = (.ok st, incdb')) :
    ∃ s, st.final_response = some s ∧ s ≠ "" := by
  unfold runWorkflow at h
  cases hres : resolver_node (initState q) env.resolve kb incdb with
  | error e =>
    rw [hres] at h
    simp only [Prod.mk.injEq] at h
    exact Except.noConfusion h.1
  | ok st1 =>
    rw [hres] at h
    rcases escalation_ok_final_response _ _ _ _ _ h with h1 | h1 | h1
    · exact ⟨_, h1, created_msg_ne_empty _⟩
    · exact ⟨_, h1, by decide⟩
    · exact ⟨_, h1, by decide⟩

theorem done_run_has_nonempty_final_response_witness :
    ∃ s, (⟨"vpn broken", some [], some [], some "yes", some "no", none,
           some "Glad it helped! No escalation needed."⟩ : AgentState).final_response =
        some s ∧ s ≠ "" :=
  done_run_has_nonempty_final_response "vpn broken" runEnvGood [] []
    ⟨"vpn broken", some [], some [], some "yes", some "no", none,
     some "Glad it helped! No escalation needed."⟩ [] (by decide)

/-- C4 counterexample: `main` installs no exception handler around
`app.ainvoke`, so the first run's error propagates out of the loop and the
whole session terminates: the result is the bare error, not a session that
presented a failure notice and went on to answer the second query — which on
its own would have succeeded. -/
theorem failing_run_crashes_session_counterexample :
    mainLoop [] [] [("vpn down", runEnvResolveFail), ("printer", runEnvGood)] =
      .error .resolveFailure ∧
    mainLoop [] [] [("printer", runEnvGood)] =
      .ok (["Glad it helped! No escalation needed."], []) := by decide

/-- C4 amended: an error raised during the Resolve or Escalate step of a run
propagates uncaught out of the interaction loop: the session terminates with
that error, no user-visible failure message is produced by the loop, and the
remaining queries are never processed. -/
theorem run_error_terminates_session (kb : List KnowledgeArticle)
    (incdb : List Incident) (q : String) (env : RunEnv)
    (rest : List (String × RunEnv)) (e : RunError)
    (hq1 : pyLower q ≠ "exit") (hq2 : pyLower q ≠ "quit")
    (hfail : (runWorkflow q env kb incdb).1 = .error e) :
    mainLoop kb incdb ((q, env) :: rest) = .error e := by
  have h1 : runWorkflow q env kb incdb = (.error e, (runWorkflow q env kb incdb).2) := by
    rw [← hfail]
  unfold mainLoop
  rw [if_neg (fun hor => hor.elim hq1 hq2), h1]

theorem run_error_terminates_session_witness :
    mainLoop [] [] [("my vpn is broken", runEnvResolveFail)] = .error .resolveFailure :=
  run_error_terminates_session [] [] "my vpn is broken" runEnvResolveFail []
    .resolveFailure (by decide) (by decide) (by decide)

end AIMCP
